import Mathlib

/-!
Verification of the resilient HTTP request engine of the `common-utils`
repository (package `httputil`): configuration resolution (`NewHTTPUtil`),
retry classification (`shouldRetry`), backoff/jitter/rate-limit wait
computation, and the retry loop `doRequest`.

Modelling conventions:
* Go `time.Duration` values are `Int` nanoseconds (`nsPerSec = 10^9`).
* Go `int` values are `Int`.
* Go `float64` arithmetic in the backoff computation (`rand.Float64()`,
  `* 1.5`, `* 0.1`, `math.Min`, conversion back to `time.Duration`) is
  modelled exactly over `ℚ`; the conversion `time.Duration(x)` truncates
  toward zero, modelled by `ratTrunc`.  For durations below about 10^15 ns
  the float computations of the source are exact in this sense.
* The HTTP transport is an oracle (`Env.step`): each attempt either fails to
  build the request (`http.NewRequestWithContext` error), fails at transport
  level (`Client.Do` returns `(nil, err)`), or produces a response.
* `context` cancellation during the inter-attempt `select` is an oracle
  (`Env.ctxDoneDuringWait`), and the `rand.Float64()` draw of each retry
  iteration is an oracle (`Env.jitterDraw`).
* The executor additionally records a trace (requests built, hook
  invocations, pre-jitter waits) so that observational claims can be stated.
-/

/-- One nanosecond-denominated second: Go `time.Second`. -/
def nsPerSec : Int := 1000000000

/-- `HTTPConfig` of `client.go`: all duration fields in nanoseconds.
`retryOnStatus = none` models a Go nil `[]int` slice. -/
structure HTTPConfig where
  clientTimeout : Int
  disableCompression : Bool
  forceAttemptHTTP2 : Bool
  maxIdleConnsPerHost : Int
  maxIdleConns : Int
  idleConnTimeout : Int
  tlsHandshakeTimeout : Int
  expectContinueTimeout : Int
  responseHeaderTimeout : Int
  maxRetries : Int
  initialWait : Int
  maxWait : Int
  retryOnStatus : Option (List Int)
deriving DecidableEq

/-- `DefaultHTTPConfig` of `client.go` (durations in nanoseconds). -/
def DefaultHTTPConfig : HTTPConfig where
  clientTimeout := 600 * nsPerSec        -- 10 * time.Minute
  disableCompression := false
  forceAttemptHTTP2 := true
  maxIdleConnsPerHost := 20
  maxIdleConns := 100
  idleConnTimeout := 90 * nsPerSec
  tlsHandshakeTimeout := 30 * nsPerSec
  expectContinueTimeout := 1 * nsPerSec
  responseHeaderTimeout := 60 * nsPerSec
  maxRetries := 5
  initialWait := 5 * nsPerSec
  maxWait := 60 * nsPerSec
  retryOnStatus := some [408, 429, 500, 502, 503, 504]

/-- The Go zero value `HTTPConfig{}` (all fields zero / false / nil). -/
def zeroHTTPConfig : HTTPConfig where
  clientTimeout := 0
  disableCompression := false
  forceAttemptHTTP2 := false
  maxIdleConnsPerHost := 0
  maxIdleConns := 0
  idleConnTimeout := 0
  tlsHandshakeTimeout := 0
  expectContinueTimeout := 0
  responseHeaderTimeout := 0
  maxRetries := 0
  initialWait := 0
  maxWait := 0
  retryOnStatus := none

/-- Configuration merge of `NewHTTPUtil` (`client.go` lines 96-135): a nil
config yields the defaults; otherwise each numeric/duration field overrides
the default exactly when non-zero, the slice overrides exactly when non-nil,
and both booleans are copied from the override unconditionally.  The Go code
mutates the `defaults` record field by field with independent conditions;
this is expressed as one record literal per field. -/
def resolveConfig : Option HTTPConfig → HTTPConfig
  | none => DefaultHTTPConfig
  | some config =>
    { clientTimeout :=
        if config.clientTimeout ≠ 0 then config.clientTimeout
        else DefaultHTTPConfig.clientTimeout
      maxIdleConnsPerHost :=
        if config.maxIdleConnsPerHost ≠ 0 then config.maxIdleConnsPerHost
        else DefaultHTTPConfig.maxIdleConnsPerHost
      maxIdleConns :=
        if config.maxIdleConns ≠ 0 then config.maxIdleConns
        else DefaultHTTPConfig.maxIdleConns
      idleConnTimeout :=
        if config.idleConnTimeout ≠ 0 then config.idleConnTimeout
        else DefaultHTTPConfig.idleConnTimeout
      tlsHandshakeTimeout :=
        if config.tlsHandshakeTimeout ≠ 0 then config.tlsHandshakeTimeout
        else DefaultHTTPConfig.tlsHandshakeTimeout
      expectContinueTimeout :=
        if config.expectContinueTimeout ≠ 0 then config.expectContinueTimeout
        else DefaultHTTPConfig.expectContinueTimeout
      responseHeaderTimeout :=
        if config.responseHeaderTimeout ≠ 0 then config.responseHeaderTimeout
        else DefaultHTTPConfig.responseHeaderTimeout
      maxRetries :=
        if config.maxRetries ≠ 0 then config.maxRetries
        else DefaultHTTPConfig.maxRetries
      initialWait :=
        if config.initialWait ≠ 0 then config.initialWait
        else DefaultHTTPConfig.initialWait
      maxWait :=
        if config.maxWait ≠ 0 then config.maxWait
        else DefaultHTTPConfig.maxWait
      retryOnStatus :=
        if config.retryOnStatus ≠ none then config.retryOnStatus
        else DefaultHTTPConfig.retryOnStatus
      disableCompression := config.disableCompression
      forceAttemptHTTP2 := config.forceAttemptHTTP2 }

/-- The retry-relevant fields of the `HTTPUtil` client object built by
`NewHTTPUtil` (the `http.Client`/transport plumbing and the logger are
external collaborators and not modelled). -/
structure HTTPUtil where
  maxRetries : Int
  initialWait : Int
  maxWait : Int
  retryOnStatus : List Int
deriving DecidableEq

/-- `NewHTTPUtil` (`client.go` lines 95-162): resolve the configuration and
populate the client fields.  After `resolveConfig` the `retryOnStatus` field
is always a concrete slice (the default is non-nil, and an override is only
taken when non-nil); `getD []` merely discharges the `Option`. -/
def NewHTTPUtil (config : Option HTTPConfig) : HTTPUtil :=
  let d := resolveConfig config
  { maxRetries := d.maxRetries
    initialWait := d.initialWait
    maxWait := d.maxWait
    retryOnStatus := d.retryOnStatus.getD [] }

/-- The client built with all defaults: `NewHTTPUtil(logger, nil)`. -/
def defaultUtil : HTTPUtil := NewHTTPUtil none

/-- The observable part of an `*http.Response` used by the engine: the
status code and the `Retry-After` header.  `Header.Get` returns `""` when
the header is absent, so absence is modelled by the empty string. -/
structure Response where
  statusCode : Int
  retryAfter : String
deriving DecidableEq

/-- `shouldRetry` of `client.go` lines 197-202: always retry on a transport
error, otherwise retry iff the status code is in the configured set
(`funk.Contains`).  The `none`/`none` case is unreachable in the source
(it would dereference a nil response); its value is irrelevant to every
theorem below. -/
def shouldRetry (retryOnStatus : List Int) (resp : Option Response)
    (err : Option String) : Bool :=
  match err with
  | some _ => true
  | none =>
    match resp with
    | some r => retryOnStatus.contains r.statusCode
    | none => false

/-- Value of a non-empty all-digit character list, Go `strconv` style. -/
def digitsVal (l : List Char) : Option Nat :=
  if l = [] then none
  else if l.all Char.isDigit then
    some (l.foldl (fun acc c => acc * 10 + (c.toNat - ('0').toNat)) 0)
  else none

/-- Largest Go `int` (64-bit) value. -/
def int64Max : Int := 9223372036854775807

/-- Smallest Go `int` (64-bit) value. -/
def int64Min : Int := -9223372036854775808

/-- `strconv.Atoi`: optional sign followed by at least one digit, base 10,
64-bit range-checked; anything else (including the empty string) is an
error, modelled as `none`. -/
def atoi (s : String) : Option Int :=
  match s.data with
  | [] => none
  | c :: rest =>
    if c = '+' then
      (digitsVal rest).bind fun n =>
        if (n : Int) ≤ int64Max then some (n : Int) else none
    else if c = '-' then
      (digitsVal rest).bind fun n =>
        if int64Min ≤ -(n : Int) then some (-(n : Int)) else none
    else
      (digitsVal (c :: rest)).bind fun n =>
        if (n : Int) ≤ int64Max then some (n : Int) else none

/-- Truncation toward zero, the semantics of Go's conversion from `float64`
to the integer type `time.Duration`. -/
def ratTrunc (q : ℚ) : Int := if 0 ≤ q then ⌊q⌋ else ⌈q⌉

/-- The jitter of `request.go` line 129:
`time.Duration(rand.Float64() * float64(currentWait) * 0.1)`, with the draw
`u` of `rand.Float64()` supplied by the oracle. -/
def jitterOf (u : ℚ) (currentWait : Int) : Int :=
  ratTrunc (u * (currentWait : ℚ) * (1 / 10))

/-- The rate-limit wait of `request.go` lines 133-140: 60 seconds, replaced
by the `Retry-After` header value (in seconds) when the header is present
and parses as an integer. -/
def rateLimitWaitOf (r : Response) : Int :=
  let rl := 60 * nsPerSec
  if r.retryAfter ≠ "" then
    match atoi r.retryAfter with
    | some seconds => seconds * nsPerSec
    | none => rl
  else rl

/-- The wait of one retry iteration, `request.go` lines 129-146: the current
pre-jitter wait plus jitter, raised to the rate-limit wait when the attempt
produced a 429 response and the rate-limit wait is larger. -/
def computeWaitTime (currentWait : Int) (u : ℚ) (resp : Option Response) : Int :=
  let jitter := jitterOf u currentWait
  let waitTime := currentWait + jitter
  match resp with
  | some r =>
    if r.statusCode = 429 then
      let rateLimitWait := rateLimitWaitOf r
      if waitTime < rateLimitWait then rateLimitWait else waitTime
    else waitTime
  | none => waitTime

/-- The pre-jitter wait update of `request.go` line 154:
`time.Duration(math.Min(float64(currentWait)*1.5, float64(h.MaxWait)))`. -/
def nextCurrentWait (currentWait maxWait : Int) : Int :=
  ratTrunc (min ((currentWait : ℚ) * (3 / 2)) (maxWait : ℚ))

/-- The sequence of pre-jitter waits of a single call: the initial wait,
then repeated application of `nextCurrentWait` (one application per
completed inter-attempt wait of the loop in `doRequest`). -/
def waitSeq (h : HTTPUtil) : Nat → Int
  | 0 => h.initialWait
  | n + 1 => nextCurrentWait (waitSeq h n) h.maxWait

/-- What a single attempt of the loop does, as decided by the environment:
`buildFail` models an `http.NewRequestWithContext` error, `doErr` models
`Client.Do` returning `(nil, err)` (transport error), and `doOk` models
`Client.Do` returning a response with nil error. -/
inductive AttemptStep where
  | buildFail
  | doErr (msg : String)
  | doOk (resp : Response)
deriving DecidableEq

/-- The environment of a call: the transport outcome of each attempt, the
`rand.Float64()` draw of each retry iteration, and whether the caller's
context is done during the inter-attempt `select` of each iteration. -/
structure Env where
  step : Nat → AttemptStep
  jitterDraw : Nat → ℚ
  ctxDoneDuringWait : Nat → Bool

/-- A request body source (`io.Reader`): `none` is a nil reader; otherwise
reading it to the end either fails or yields a byte sequence. -/
def BodyReader := Except String (List Nat)

/-- `RequestOptions` of `request.go` (headers carry no retry-relevant
behaviour — they are set identically on every attempt — and the context is
modelled through `Env`). -/
structure RequestOptions where
  method : String
  url : String
  body : Option BodyReader

/-- The `io.ReadAll(opts.Body)` step guarded by `opts.Body != nil`
(`request.go` lines 83-88). -/
def readAllBody : Option BodyReader → Except String (Option (List Nat))
  | none => Except.ok none
  | some (Except.error e) => Except.error e
  | some (Except.ok bs) => Except.ok (some bs)

/-- The last error embedded in a `RetryExhaustedError` (`request.go` lines
181-186): either the function-scope `err` value, or the synthesized
`"unknown error after %d attempts"` message. -/
inductive ExhaustLastError where
  | fromTransport (msg : String)
  | unknownAfter (attempts : Int)
deriving DecidableEq

/-- `RetryExhaustedError` as constructed at `request.go` lines 171-187. -/
structure RetryExhaustedError where
  url : String
  method : String
  attempts : Int
  lastStatus : Int
  lastError : ExhaustLastError
deriving DecidableEq

/-- The error results a call can produce (each constructor models one
`return`-with-error site of `doRequest`). -/
inductive ReqError where
  | emptyMethod
  | emptyURL
  | bodyReadFailed (msg : String)
  | createRequestFailed
  | cancelledDuringRetry
  | retryExhausted (e : RetryExhaustedError)
deriving DecidableEq

/-- The observable data of one request object built by an attempt
(`http.NewRequestWithContext(ctx, method, url, bodyReader)` where
`bodyReader` is a fresh `bytes.NewReader` over the body snapshot). -/
structure BuiltRequest where
  method : String
  url : String
  body : Option (List Nat)
deriving DecidableEq

/-- The arguments of one `RetryHook(attempt, resp, err)` invocation. -/
structure RetryCall where
  attempt : Nat
  resp : Option Response
  err : Option String
deriving DecidableEq

/-- The result of a call plus its observable trace.  `resp`/`err` are the
two Go return values of `doRequest`; `built` lists the request objects
built (one per attempt, in order); `retryCalls`/`successCalls` record hook
invocations; `waits` records the pre-jitter `currentWait` of each retry
iteration that reached the inter-attempt wait, and `sleeps` the
corresponding post-jitter/rate-limit `waitTime` actually slept on. -/
structure DoOutcome where
  resp : Option Response
  err : Option ReqError
  built : List BuiltRequest
  retryCalls : List RetryCall
  successCalls : List (Option Response)
  waits : List Int
  sleeps : List Int
deriving DecidableEq

/-- `statusCode` of a possibly-nil response, as the inline closures at
`request.go` lines 163-168 and 175-180 compute it: 0 when nil. -/
def statusOfResp : Option Response → Int
  | some r => r.statusCode
  | none => 0

/-- The `RetryExhaustedError` literal of `request.go` lines 171-187.
`errOuter` is the function-scope `err` variable: the loop's
`req, err := http.NewRequestWithContext(...)` declares a new `err` in the
loop body, so `resp, err = h.Client.Do(req)` assigns that inner variable
and the function-scope `err` is never reassigned by an attempt. -/
def mkExhaustErr (h : HTTPUtil) (opts : RequestOptions)
    (errOuter : Option String) (resp : Option Response) : RetryExhaustedError :=
  { url := opts.url
    method := opts.method
    attempts := h.maxRetries + 1
    lastStatus := statusOfResp resp
    lastError :=
      match errOuter with
      | some e => ExhaustLastError.fromTransport e
      | none => ExhaustLastError.unknownAfter (h.maxRetries + 1) }

/-- Falling off the retry loop: `return resp, &RetryExhaustedError{...}`. -/
def exhaustOutcome (h : HTTPUtil) (opts : RequestOptions)
    (errOuter : Option String) (resp : Option Response) : DoOutcome :=
  { resp := resp
    err := some (ReqError.retryExhausted (mkExhaustErr h opts errOuter resp))
    built := []
    retryCalls := []
    successCalls := []
    waits := []
    sleeps := [] }

/-- The retry loop of `doRequest` (`request.go` lines 99-156),
`for attempt := 0; attempt <= h.MaxRetries; attempt++`.  `fuel` counts the
remaining iterations the loop guard admits; the caller initializes it to
`(h.maxRetries + 1).toNat` so that `fuel = 0` exactly when the guard
`attempt <= h.MaxRetries` fails (immediately so when `maxRetries < 0`).
`resp` is the function-scope response variable (overwritten by every
attempt), `errOuter` the function-scope error variable (never reassigned
inside the loop, see `mkExhaustErr`). -/
def doLoop (h : HTTPUtil) (opts : RequestOptions) (env : Env)
    (bodyBytes : Option (List Nat)) (errOuter : Option String) :
    Nat → Int → Option Response → Nat → DoOutcome
  | _, _, resp, 0 => exhaustOutcome h opts errOuter resp
  | attempt, currentWait, _, fuel + 1 =>
    if env.step attempt = AttemptStep.buildFail then
      -- `return nil, fmt.Errorf("failed to create request: %w", err)`
      { resp := none, err := some ReqError.createRequestFailed
        built := [], retryCalls := [], successCalls := [], waits := [], sleeps := [] }
    else
      let req : BuiltRequest := { method := opts.method, url := opts.url, body := bodyBytes }
      -- `resp, err = h.Client.Do(req)` (the function-scope resp, loop-scope err)
      let resp' : Option Response :=
        match env.step attempt with
        | AttemptStep.doOk r => some r
        | _ => none
      let attemptErr : Option String :=
        match env.step attempt with
        | AttemptStep.doErr e => some e
        | _ => none
      if attemptErr.isNone && !(shouldRetry h.retryOnStatus resp' attemptErr) then
        -- success: `h.SuccessHook(resp, opts); return resp, nil`
        { resp := resp', err := none, built := [req]
          retryCalls := [], successCalls := [resp'], waits := [], sleeps := [] }
      else if h.maxRetries ≤ (attempt : Int) then
        -- `if attempt >= h.MaxRetries { break }`
        { exhaustOutcome h opts errOuter resp' with built := [req] }
      else
        let rc : RetryCall := { attempt := attempt, resp := resp', err := attemptErr }
        let waitTime := computeWaitTime currentWait (env.jitterDraw attempt) resp'
        if env.ctxDoneDuringWait attempt then
          -- `return nil, fmt.Errorf("context cancelled during retry: %w", ...)`
          { resp := none, err := some ReqError.cancelledDuringRetry
            built := [req], retryCalls := [rc], successCalls := []
            waits := [currentWait], sleeps := [waitTime] }
        else
          let rest := doLoop h opts env bodyBytes errOuter (attempt + 1)
            (nextCurrentWait currentWait h.maxWait) resp' fuel
          { resp := rest.resp
            err := rest.err
            built := req :: rest.built
            retryCalls := rc :: rest.retryCalls
            successCalls := rest.successCalls
            waits := currentWait :: rest.waits
            sleeps := waitTime :: rest.sleeps }

/-- `doRequest` (`request.go` lines 71-188): validation, one body read,
context defaulting (absorbed into `Env`), then the retry loop starting at
attempt 0 with `currentWait = h.InitialWait`.  On the path reaching the
loop the function-scope `err` is nil (the body read succeeded or was
skipped), hence `errOuter = none`. -/
def doRequest (h : HTTPUtil) (opts : RequestOptions) (env : Env) : DoOutcome :=
  if opts.method = "" then
    { resp := none, err := some ReqError.emptyMethod
      built := [], retryCalls := [], successCalls := [], waits := [], sleeps := [] }
  else if opts.url = "" then
    { resp := none, err := some ReqError.emptyURL
      built := [], retryCalls := [], successCalls := [], waits := [], sleeps := [] }
  else
    match readAllBody opts.body with
    | Except.error e =>
      { resp := none, err := some (ReqError.bodyReadFailed e)
        built := [], retryCalls := [], successCalls := [], waits := [], sleeps := [] }
    | Except.ok bodyBytes =>
      doLoop h opts env bodyBytes none 0 h.initialWait none (h.maxRetries + 1).toNat

/-- An attempt outcome the retry engine classifies as retryable: a
transport error, or a response whose status is in the retryable set.  A
request-construction failure is not retryable (it aborts the call). -/
def retryableStep (h : HTTPUtil) : AttemptStep → Bool
  | AttemptStep.buildFail => false
  | AttemptStep.doErr _ => true
  | AttemptStep.doOk r => shouldRetry h.retryOnStatus (some r) none

/-- The response delivered by an attempt, if any. -/
def respOfStep : AttemptStep → Option Response
  | AttemptStep.doOk r => some r
  | _ => none

theorem ratTrunc_intCast (m : Int) : ratTrunc (m : ℚ) = m := by
  unfold ratTrunc
  split
  · exact Int.floor_intCast m
  · exact Int.ceil_intCast m

theorem ratTrunc_mono {a b : ℚ} (hab : a ≤ b) : ratTrunc a ≤ ratTrunc b := by
  unfold ratTrunc
  rcases le_or_lt 0 a with ha | ha
  · rw [if_pos ha, if_pos (ha.trans hab)]
    exact Int.floor_le_floor hab
  · rw [if_neg (not_le.mpr ha)]
    rcases le_or_lt 0 b with hb | hb
    · rw [if_pos hb]
      calc ⌈a⌉ ≤ 0 := Int.ceil_le.mpr (by exact_mod_cast ha.le)
        _ ≤ ⌊b⌋ := Int.floor_nonneg.mpr hb
    · rw [if_neg (not_le.mpr hb)]
      exact Int.ceil_le_ceil hab

theorem ratTrunc_min_intCast (q : ℚ) (m : Int) :
    ratTrunc (min q (m : ℚ)) = min (ratTrunc q) m := by
  rcases le_total q (m : ℚ) with h | h
  · rw [min_eq_left h, min_eq_left]
    calc ratTrunc q ≤ ratTrunc (m : ℚ) := ratTrunc_mono h
      _ = m := ratTrunc_intCast m
  · rw [min_eq_right h, ratTrunc_intCast, min_eq_right]
    calc m = ratTrunc (m : ℚ) := (ratTrunc_intCast m).symm
      _ ≤ ratTrunc q := ratTrunc_mono h

theorem ratTrunc_nonneg {q : ℚ} (h : 0 ≤ q) : 0 ≤ ratTrunc q := by
  unfold ratTrunc
  rw [if_pos h]
  exact Int.floor_nonneg.mpr h

theorem ratTrunc_le_self {q : ℚ} (h : 0 ≤ q) : (ratTrunc q : ℚ) ≤ q := by
  unfold ratTrunc
  rw [if_pos h]
  exact Int.floor_le q

theorem le_ratTrunc_of_intCast_le {m : Int} {q : ℚ} (hm : 0 ≤ m) (h : (m : ℚ) ≤ q) :
    m ≤ ratTrunc q := by
  unfold ratTrunc
  rw [if_pos ((Int.cast_nonneg.mpr hm).trans h)]
  exact Int.le_floor.mpr h

/-- Claim C1: `shouldRetry` returns true for every non-nil error regardless
of the response; for a nil error it returns true exactly when the
response's status code is in the configured retryable-status set; the
default set (also the one installed by `NewHTTPUtil(logger, nil)`) is
{408, 429, 500, 502, 503, 504}; with that set it returns true for each of
those six statuses and false for 200 and 404. -/
theorem C1_shouldRetry :
    (∀ (retryOn : List Int) (resp : Option Response) (e : String),
      shouldRetry retryOn resp (some e) = true)
    ∧ (∀ (retryOn : List Int) (r : Response),
      shouldRetry retryOn (some r) none = true ↔ r.statusCode ∈ retryOn)
    ∧ DefaultHTTPConfig.retryOnStatus = some [408, 429, 500, 502, 503, 504]
    ∧ defaultUtil.retryOnStatus = [408, 429, 500, 502, 503, 504]
    ∧ shouldRetry defaultUtil.retryOnStatus (some ⟨408, ""⟩) none = true
    ∧ shouldRetry defaultUtil.retryOnStatus (some ⟨429, ""⟩) none = true
    ∧ shouldRetry defaultUtil.retryOnStatus (some ⟨500, ""⟩) none = true
    ∧ shouldRetry defaultUtil.retryOnStatus (some ⟨502, ""⟩) none = true
    ∧ shouldRetry defaultUtil.retryOnStatus (some ⟨503, ""⟩) none = true
    ∧ shouldRetry defaultUtil.retryOnStatus (some ⟨504, ""⟩) none = true
    ∧ shouldRetry defaultUtil.retryOnStatus (some ⟨200, ""⟩) none = false
    ∧ shouldRetry defaultUtil.retryOnStatus (some ⟨404, ""⟩) none = false := by
  refine ⟨fun retryOn resp e => rfl, fun retryOn r => ?_, by decide, by decide,
    by decide, by decide, by decide, by decide, by decide, by decide, by decide, by decide⟩
  simp [shouldRetry]

/-- Claim C8: the resolved configuration takes the default for every
numeric/duration/slice field whose override is the zero value (0, resp. a
nil slice), the override value for every such field that is non-zero, both
boolean flags verbatim whenever an override object is supplied, and no
range validation is performed: negative values pass through unchanged. -/
theorem C8_resolveConfig :
    resolveConfig none = DefaultHTTPConfig
    ∧ (∀ c : HTTPConfig,
        (resolveConfig (some c)).clientTimeout =
          (if c.clientTimeout = 0 then DefaultHTTPConfig.clientTimeout else c.clientTimeout)
        ∧ (resolveConfig (some c)).maxIdleConnsPerHost =
          (if c.maxIdleConnsPerHost = 0 then DefaultHTTPConfig.maxIdleConnsPerHost
           else c.maxIdleConnsPerHost)
        ∧ (resolveConfig (some c)).maxIdleConns =
          (if c.maxIdleConns = 0 then DefaultHTTPConfig.maxIdleConns else c.maxIdleConns)
        ∧ (resolveConfig (some c)).idleConnTimeout =
          (if c.idleConnTimeout = 0 then DefaultHTTPConfig.idleConnTimeout else c.idleConnTimeout)
        ∧ (resolveConfig (some c)).tlsHandshakeTimeout =
          (if c.tlsHandshakeTimeout = 0 then DefaultHTTPConfig.tlsHandshakeTimeout
           else c.tlsHandshakeTimeout)
        ∧ (resolveConfig (some c)).expectContinueTimeout =
          (if c.expectContinueTimeout = 0 then DefaultHTTPConfig.expectContinueTimeout
           else c.expectContinueTimeout)
        ∧ (resolveConfig (some c)).responseHeaderTimeout =
          (if c.responseHeaderTimeout = 0 then DefaultHTTPConfig.responseHeaderTimeout
           else c.responseHeaderTimeout)
        ∧ (resolveConfig (some c)).maxRetries =
          (if c.maxRetries = 0 then DefaultHTTPConfig.maxRetries else c.maxRetries)
        ∧ (resolveConfig (some c)).initialWait =
          (if c.initialWait = 0 then DefaultHTTPConfig.initialWait else c.initialWait)
        ∧ (resolveConfig (some c)).maxWait =
          (if c.maxWait = 0 then DefaultHTTPConfig.maxWait else c.maxWait)
        ∧ (resolveConfig (some c)).retryOnStatus =
          (match c.retryOnStatus with
           | none => DefaultHTTPConfig.retryOnStatus
           | some l => some l)
        ∧ (resolveConfig (some c)).disableCompression = c.disableCompression
        ∧ (resolveConfig (some c)).forceAttemptHTTP2 = c.forceAttemptHTTP2)
    ∧ (resolveConfig (some { zeroHTTPConfig with
          maxRetries := -3, clientTimeout := -7, initialWait := -5 })).maxRetries = -3
    ∧ (resolveConfig (some { zeroHTTPConfig with
          maxRetries := -3, clientTimeout := -7, initialWait := -5 })).clientTimeout = -7
    ∧ (resolveConfig (some { zeroHTTPConfig with
          maxRetries := -3, clientTimeout := -7, initialWait := -5 })).initialWait = -5 := by
  refine ⟨rfl, fun c => ?_, by decide, by decide, by decide⟩
  obtain ⟨ct, dc, fh, mph, mi, ict, tls, ect, rht, mr, iw, mw, ros⟩ := c
  refine ⟨?_, ?_, ?_, ?_, ?_, ?_, ?_, ?_, ?_, ?_, ?_, rfl, rfl⟩ <;>
    cases ros <;> simp [resolveConfig]

/-- Claim C2: in each retry iteration with pre-jitter wait `w`, the wait
actually slept on is `w` plus a jitter equal to the truncation of
`u * w * 0.1` for the uniform draw `u ∈ [0, 1)` — hence in `[0, 0.1*w)`
for positive `w`; the next pre-jitter wait is `min(w * 1.5, maxWait)`
(truncated); when the attempt's response has status 429 the wait becomes
`max(jittered wait, rate-limit wait)` where the rate-limit wait is the
`Retry-After` header in integer seconds, defaulting to 60 seconds when the
header is absent or unparsable; the rate-limit wait is not clamped and can
exceed the configured max wait (concretely: 120 seconds against the
default 60-second max wait). -/
theorem C2_backoff :
    (∀ (u : ℚ) (w : Int), 0 ≤ u → u < 1 → 0 < w →
      0 ≤ jitterOf u w ∧ ((jitterOf u w : ℚ) < (w : ℚ) * (1 / 10)))
    ∧ (∀ (w : Int) (u : ℚ), computeWaitTime w u none = w + jitterOf u w)
    ∧ (∀ (w : Int) (u : ℚ) (r : Response), r.statusCode ≠ 429 →
      computeWaitTime w u (some r) = w + jitterOf u w)
    ∧ (∀ (w : Int) (u : ℚ) (r : Response), r.statusCode = 429 →
      computeWaitTime w u (some r) = max (w + jitterOf u w) (rateLimitWaitOf r))
    ∧ (∀ r : Response, r.retryAfter = "" → rateLimitWaitOf r = 60 * nsPerSec)
    ∧ (∀ r : Response, atoi r.retryAfter = none → rateLimitWaitOf r = 60 * nsPerSec)
    ∧ (∀ (r : Response) (s : Int), atoi r.retryAfter = some s →
      rateLimitWaitOf r = s * nsPerSec)
    ∧ (∀ w maxW : Int,
      nextCurrentWait w maxW = min (ratTrunc ((w : ℚ) * (3 / 2))) maxW)
    ∧ DefaultHTTPConfig.maxWait = 60 * nsPerSec
    ∧ computeWaitTime (5 * nsPerSec) 0 (some { statusCode := 429, retryAfter := "120" })
        = 120 * nsPerSec
    ∧ DefaultHTTPConfig.maxWait < 120 * nsPerSec := by
  refine ⟨?_, ?_, ?_, ?_, ?_, ?_, ?_, ?_, by decide, ?_, by decide⟩
  · intro u w hu0 hu1 hw
    have harg : (0 : ℚ) ≤ u * (w : ℚ) * (1 / 10) := by positivity
    constructor
    · exact ratTrunc_nonneg harg
    · calc (jitterOf u w : ℚ) ≤ u * (w : ℚ) * (1 / 10) := ratTrunc_le_self harg
        _ < 1 * (w : ℚ) * (1 / 10) := by
            have hwq : (0 : ℚ) < (w : ℚ) := by exact_mod_cast hw
            have : u * ((w : ℚ) * (1 / 10)) < 1 * ((w : ℚ) * (1 / 10)) := by
              apply mul_lt_mul_of_pos_right hu1
              positivity
            linarith [this]
        _ = (w : ℚ) * (1 / 10) := by ring
  · intro w u
    rfl
  · intro w u r h429
    simp [computeWaitTime, h429]
  · intro w u r h429
    simp only [computeWaitTime, h429, if_pos]
    rcases le_or_lt (rateLimitWaitOf r) (w + jitterOf u w) with h | h
    · rw [if_neg (not_lt.mpr h), max_eq_left h]
    · rw [if_pos h, max_eq_right h.le]
  · intro r hra
    simp [rateLimitWaitOf, hra]
  · intro r hparse
    unfold rateLimitWaitOf
    split
    · rw [hparse]
    · rfl
  · intro r s hparse
    unfold rateLimitWaitOf
    have hne : r.retryAfter ≠ "" := by
      intro hempty
      rw [hempty] at hparse
      simp [atoi] at hparse
    rw [if_pos hne, hparse]
  · intro w maxW
    unfold nextCurrentWait
    exact ratTrunc_min_intCast _ maxW
  · unfold computeWaitTime rateLimitWaitOf jitterOf ratTrunc
    norm_num [nsPerSec]
    decide

/-- Witness for C2: the jitter bound instantiated at `u = 1/2`,
`w = nsPerSec` (one second). -/
theorem C2_backoff_witness :
    (0 : ℚ) ≤ 1 / 2 ∧ (1 / 2 : ℚ) < 1 ∧ (0 : Int) < nsPerSec
    ∧ (0 ≤ jitterOf (1 / 2) nsPerSec
       ∧ ((jitterOf (1 / 2) nsPerSec : ℚ) < (nsPerSec : ℚ) * (1 / 10))) :=
  ⟨by norm_num, by norm_num, by decide,
    C2_backoff.1 (1 / 2) nsPerSec (by norm_num) (by norm_num) (by decide)⟩

/-- An environment whose oracles are never consulted on the paths a theorem
exercises (used to instantiate theorems at concrete inputs). -/
def quietEnv : Env where
  step := fun _ => AttemptStep.doErr "connection refused"
  jitterDraw := fun _ => 0
  ctxDoneDuringWait := fun _ => false

/-- Claim C5: an empty method or an empty URL makes `doRequest` return a
validation error immediately: no request object is built, no attempt (and
hence no network call) is made, and neither hook is invoked. -/
theorem C5_validation (h : HTTPUtil) (opts : RequestOptions) (env : Env)
    (hval : opts.method = "" ∨ opts.url = "") :
    ((doRequest h opts env).err = some ReqError.emptyMethod
      ∨ (doRequest h opts env).err = some ReqError.emptyURL)
    ∧ (doRequest h opts env).resp = none
    ∧ (doRequest h opts env).built = []
    ∧ (doRequest h opts env).retryCalls = []
    ∧ (doRequest h opts env).successCalls = [] := by
  by_cases hm : opts.method = ""
  · simp [doRequest, hm]
  · rcases hval with hval | hval
    · exact absurd hval hm
    · simp [doRequest, hm, hval]

/-- Witness for C5: an empty method against the default client. -/
theorem C5_validation_witness :
    (("" : String) = "" ∨ ("http://example.com" : String) = "")
    ∧ (((doRequest defaultUtil { method := "", url := "http://example.com", body := none }
          quietEnv).err = some ReqError.emptyMethod
        ∨ (doRequest defaultUtil { method := "", url := "http://example.com", body := none }
          quietEnv).err = some ReqError.emptyURL)
      ∧ (doRequest defaultUtil { method := "", url := "http://example.com", body := none }
          quietEnv).resp = none
      ∧ (doRequest defaultUtil { method := "", url := "http://example.com", body := none }
          quietEnv).built = []
      ∧ (doRequest defaultUtil { method := "", url := "http://example.com", body := none }
          quietEnv).retryCalls = []
      ∧ (doRequest defaultUtil { method := "", url := "http://example.com", body := none }
          quietEnv).successCalls = []) :=
  ⟨Or.inl rfl,
    C5_validation defaultUtil { method := "", url := "http://example.com", body := none }
      quietEnv (Or.inl rfl)⟩

@[simp]
theorem exhaustOutcome_err (h : HTTPUtil) (opts : RequestOptions)
    (errOuter : Option String) (resp : Option Response) :
    (exhaustOutcome h opts errOuter resp).err
      = some (ReqError.retryExhausted (mkExhaustErr h opts errOuter resp)) := rfl

@[simp]
theorem exhaustOutcome_resp (h : HTTPUtil) (opts : RequestOptions)
    (errOuter : Option String) (resp : Option Response) :
    (exhaustOutcome h opts errOuter resp).resp = resp := rfl

/-- Every exhaustion result of the loop is the `RetryExhaustedError` built
by `mkExhaustErr` from the response value the loop returns alongside it. -/
theorem doLoop_exhaust_shape (h : HTTPUtil) (opts : RequestOptions) (env : Env)
    (bodyBytes : Option (List Nat)) (errOuter : Option String) :
    ∀ (fuel attempt : Nat) (currentWait : Int) (resp : Option Response)
      (e : RetryExhaustedError),
      (doLoop h opts env bodyBytes errOuter attempt currentWait resp fuel).err
          = some (ReqError.retryExhausted e) →
      e = mkExhaustErr h opts errOuter
            ((doLoop h opts env bodyBytes errOuter attempt currentWait resp fuel).resp) := by
  intro fuel
  induction fuel with
  | zero =>
    intro attempt w resp e he
    simp only [doLoop, exhaustOutcome_err, exhaustOutcome_resp] at he ⊢
    simp only [Option.some.injEq, ReqError.retryExhausted.injEq] at he
    exact he.symm
  | succ fuel ih =>
    intro attempt w resp e he
    cases hstep : env.step attempt with
    | buildFail =>
      simp [doLoop, hstep] at he
    | doErr msg =>
      by_cases hlast : h.maxRetries ≤ (attempt : Int)
      · simp only [doLoop, hstep] at he ⊢
        simp [hlast, shouldRetry] at he ⊢
        exact he.symm
      · by_cases hc : env.ctxDoneDuringWait attempt
        · simp [doLoop, hstep, hlast, hc, shouldRetry] at he
        · simp only [doLoop, hstep] at he ⊢
          simp only [shouldRetry, Option.isNone_some, Bool.false_and, Bool.false_eq_true,
            if_false, if_neg hlast, hc, Bool.false_eq_true, if_false] at he ⊢
          exact ih _ _ _ _ he
    | doOk r =>
      by_cases hs : shouldRetry h.retryOnStatus (some r) none
      · by_cases hlast : h.maxRetries ≤ (attempt : Int)
        · simp only [doLoop, hstep] at he ⊢
          simp [hlast, hs] at he ⊢
          exact he.symm
        · by_cases hc : env.ctxDoneDuringWait attempt
          · simp [doLoop, hstep, hlast, hc, hs] at he
          · simp only [doLoop, hstep] at he ⊢
            simp only [Option.isNone_none, Bool.true_and, hs, Bool.not_true,
              Bool.false_eq_true, if_false, if_neg hlast, hc, if_false] at he ⊢
            exact ih _ _ _ _ he
      · simp [doLoop, hstep, hs] at he

/-- Default-configured client with max retries lowered to 1. -/
def util1r : HTTPUtil := { defaultUtil with maxRetries := 1 }

/-- A server that always answers 500. -/
def env500 : Env where
  step := fun _ => AttemptStep.doOk { statusCode := 500, retryAfter := "" }
  jitterDraw := fun _ => 0
  ctxDoneDuringWait := fun _ => false

/-- Request descriptor used by the C3 scenarios. -/
def opts3 : RequestOptions := { method := "GET", url := "http://c3", body := none }

/-- A server that answers 500 on attempt 0 and then fails at transport
level on every later attempt. -/
def env3 : Env where
  step := fun n =>
    if n = 0 then AttemptStep.doOk { statusCode := 500, retryAfter := "" }
    else AttemptStep.doErr "connection reset"
  jitterDraw := fun _ => 0
  ctxDoneDuringWait := fun _ => false

/-- Counterexample to claim C3 as stated: with max retries 1, attempt 0
receives a 500 response and attempt 1 (the last) fails at transport level.
A response was received during the call (status 500, the last response
received), yet the exhaustion error carries `lastStatus = 0`: Go's
`resp, err = h.Client.Do(req)` overwrites the response variable with nil
on the errored final attempt, so the code reports the final attempt's
(absent) response, not the last response received. -/
theorem C3_counterexample :
    util1r.maxRetries = 1
    ∧ env3.step 0 = AttemptStep.doOk { statusCode := 500, retryAfter := "" }
    ∧ env3.step 1 = AttemptStep.doErr "connection reset"
    ∧ (doRequest util1r opts3 env3).built.length = 2
    ∧ (doRequest util1r opts3 env3).err
        = some (ReqError.retryExhausted
            { url := "http://c3", method := "GET", attempts := 2, lastStatus := 0,
              lastError := ExhaustLastError.unknownAfter 2 })
    ∧ (0 : Int) ≠ 500 := by
  refine ⟨by decide, by decide, by decide, by decide, by decide, by decide⟩

/-- Claim C3 amended: when `doRequest` returns a `RetryExhaustedError`, its
`Attempts` field is the configured max retries plus 1 and its URL and
method are the call's, but its `LastStatus` field equals the status code of
the response returned alongside the error — the *final* attempt's response
— and is 0 whenever the final attempt produced no response (even if an
earlier attempt did).  In particular, with max retries 1 against a server
that always returns 500, the error carries attempts 2 and last status 500. -/
theorem C3_amended :
    (∀ (h : HTTPUtil) (opts : RequestOptions) (env : Env) (e : RetryExhaustedError),
      (doRequest h opts env).err = some (ReqError.retryExhausted e) →
      e.attempts = h.maxRetries + 1
      ∧ e.url = opts.url
      ∧ e.method = opts.method
      ∧ e.lastStatus = statusOfResp ((doRequest h opts env).resp))
    ∧ (doRequest util1r opts3 env500).err
        = some (ReqError.retryExhausted
            { url := "http://c3", method := "GET", attempts := 2, lastStatus := 500,
              lastError := ExhaustLastError.unknownAfter 2 }) := by
  constructor
  · intro h opts env e he
    unfold doRequest at he ⊢
    by_cases hm : opts.method = ""
    · simp [hm] at he
    · simp only [if_neg hm] at he ⊢
      by_cases hu : opts.url = ""
      · simp [hu] at he
      · simp only [if_neg hu] at he ⊢
        cases hb : readAllBody opts.body with
        | error msg =>
          rw [hb] at he
          simp at he
        | ok bodyBytes =>
          rw [hb] at he
          have hshape := doLoop_exhaust_shape h opts env bodyBytes none
            (h.maxRetries + 1).toNat 0 h.initialWait none e (by exact he)
          rw [hshape]
          exact ⟨rfl, rfl, rfl, rfl⟩
  · decide

/-- Witness for C3: the general part of the theorem applied to the
always-500 scenario. -/
theorem C3_amended_witness :
    (doRequest util1r opts3 env500).err
        = some (ReqError.retryExhausted
            { url := "http://c3", method := "GET", attempts := 2, lastStatus := 500,
              lastError := ExhaustLastError.unknownAfter 2 })
    ∧ (({ url := "http://c3", method := "GET", attempts := 2, lastStatus := 500,
          lastError := ExhaustLastError.unknownAfter 2 } : RetryExhaustedError).attempts
          = util1r.maxRetries + 1
        ∧ ({ url := "http://c3", method := "GET", attempts := 2, lastStatus := 500,
             lastError := ExhaustLastError.unknownAfter 2 } : RetryExhaustedError).url
          = opts3.url
        ∧ ({ url := "http://c3", method := "GET", attempts := 2, lastStatus := 500,
             lastError := ExhaustLastError.unknownAfter 2 } : RetryExhaustedError).method
          = opts3.method
        ∧ ({ url := "http://c3", method := "GET", attempts := 2, lastStatus := 500,
             lastError := ExhaustLastError.unknownAfter 2 } : RetryExhaustedError).lastStatus
          = statusOfResp ((doRequest util1r opts3 env500).resp)) :=
  ⟨by decide, C3_amended.1 util1r opts3 env500 _ (by decide)⟩

/-- Default-configured client with max retries lowered to 0. -/
def util0 : HTTPUtil := { defaultUtil with maxRetries := 0 }

/-- Request descriptor used by the C4 scenario. -/
def optsC4 : RequestOptions := { method := "GET", url := "http://c4", body := none }

/-- In every exhaustion error produced by `doRequest` the `LastError` field
is the synthesized message, never a transport error: the loop's
`req, err := http.NewRequestWithContext(...)` declares a fresh `err` in the
loop body, so `resp, err = h.Client.Do(req)` assigns that shadowing
variable and the function-scope `err` read by the error constructor is
still nil. -/
theorem doRequest_lastError_always_synthesized (h : HTTPUtil)
    (opts : RequestOptions) (env : Env) (e : RetryExhaustedError)
    (he : (doRequest h opts env).err = some (ReqError.retryExhausted e)) :
    e.lastError = ExhaustLastError.unknownAfter (h.maxRetries + 1) := by
  unfold doRequest at he
  by_cases hm : opts.method = ""
  · simp [hm] at he
  · simp only [if_neg hm] at he
    by_cases hu : opts.url = ""
    · simp [hu] at he
    · simp only [if_neg hu] at he
      cases hb : readAllBody opts.body with
      | error msg =>
        rw [hb] at he
        simp at he
      | ok bodyBytes =>
        rw [hb] at he
        have hshape := doLoop_exhaust_shape h opts env bodyBytes none
          (h.maxRetries + 1).toNat 0 h.initialWait none e (by exact he)
        rw [hshape]
        rfl

/-- Claim C4 (code bug): with max retries 0, the single attempt fails with
the transport error "connection refused", yet the exhaustion error embeds
the synthesized `unknown error after 1 attempts` instead of that transport
error — the dead `if err != nil` branch of the `LastError` closure is never
taken because of the variable shadowing described in
`doRequest_lastError_always_synthesized`. -/
theorem C4_lastError_bug :
    quietEnv.step 0 = AttemptStep.doErr "connection refused"
    ∧ (doRequest util0 optsC4 quietEnv).err
        = some (ReqError.retryExhausted
            { url := "http://c4", method := "GET", attempts := 1, lastStatus := 0,
              lastError := ExhaustLastError.unknownAfter 1 })
    ∧ ExhaustLastError.unknownAfter 1 ≠ ExhaustLastError.fromTransport "connection refused" := by
  exact ⟨by decide, by decide, by decide⟩

/-- Every request object built during the loop carries exactly the body
snapshot taken at entry. -/
theorem doLoop_built_body (h : HTTPUtil) (opts : RequestOptions) (env : Env)
    (bodyBytes : Option (List Nat)) (errOuter : Option String) :
    ∀ (fuel attempt : Nat) (w : Int) (resp : Option Response),
      ((doLoop h opts env bodyBytes errOuter attempt w resp fuel).built).all
        (fun req => req.body == bodyBytes) = true := by
  intro fuel
  induction fuel with
  | zero =>
    intro attempt w resp
    simp [doLoop, exhaustOutcome]
  | succ fuel ih =>
    intro attempt w resp
    cases hstep : env.step attempt with
    | buildFail => simp [doLoop, hstep]
    | doErr msg =>
      by_cases hlast : h.maxRetries ≤ (attempt : Int)
      · simp [doLoop, hstep, hlast, shouldRetry, exhaustOutcome]
      · by_cases hc : env.ctxDoneDuringWait attempt
        · simp [doLoop, hstep, hlast, hc, shouldRetry]
        · simp [doLoop, hstep, hlast, hc, shouldRetry, ih]
    | doOk r =>
      by_cases hs : shouldRetry h.retryOnStatus (some r) none
      · by_cases hlast : h.maxRetries ≤ (attempt : Int)
        · simp [doLoop, hstep, hlast, hs, exhaustOutcome]
        · by_cases hc : env.ctxDoneDuringWait attempt
          · simp [doLoop, hstep, hlast, hc, hs]
          · simp [doLoop, hstep, hlast, hc, hs, ih]
      · simp [doLoop, hstep, hs]

/-- Claim C6: when the call has a body, its bytes are captured in one
snapshot before the first attempt, and every attempt's request object is
built over that same snapshot, so every attempt sends the identical byte
sequence. -/
theorem C6_body_snapshot (h : HTTPUtil) (opts : RequestOptions) (env : Env)
    (bs : List Nat) (hb : opts.body = some (Except.ok bs)) :
    ((doRequest h opts env).built).all (fun req => req.body == some bs) = true := by
  unfold doRequest
  by_cases hm : opts.method = ""
  · simp [hm]
  · by_cases hu : opts.url = ""
    · simp [hm, hu]
    · simp only [if_neg hm, if_neg hu]
      have hrb : readAllBody opts.body = Except.ok (some bs) := by rw [hb]; rfl
      rw [hrb]
      exact doLoop_built_body h opts env (some bs) none _ 0 h.initialWait none

/-- Request descriptor with body bytes `[1, 2, 3]` used by the C6 witness. -/
def optsC6 : RequestOptions :=
  { method := "POST", url := "http://c6", body := some (Except.ok [1, 2, 3]) }

/-- Witness for C6: a two-attempt call (500 then exhaustion) in which both
built requests carry the `[1, 2, 3]` snapshot. -/
theorem C6_body_snapshot_witness :
    optsC6.body = some (Except.ok [1, 2, 3])
    ∧ ((doRequest util1r optsC6 env500).built).all
        (fun req => req.body == some [1, 2, 3]) = true :=
  ⟨rfl, C6_body_snapshot util1r optsC6 env500 [1, 2, 3] rfl⟩

/-- If every attempt from `attempt` to `attempt + n` is retryable, the
context stays quiet during the waits before `attempt + n`, the context is
done during the wait after attempt `attempt + n`, and that iteration is not
the last one admitted by the loop bound, then the loop returns the
cancellation error after having built exactly `n + 1` requests. -/
theorem doLoop_cancel (h : HTTPUtil) (opts : RequestOptions) (env : Env)
    (bodyBytes : Option (List Nat)) (errOuter : Option String) :
    ∀ (n fuel attempt : Nat) (w : Int) (resp : Option Response),
      (fuel : Int) = h.maxRetries + 1 - attempt →
      ((attempt : Int) + n) < h.maxRetries →
      (∀ m : Nat, attempt ≤ m → m ≤ attempt + n → retryableStep h (env.step m) = true) →
      (∀ m : Nat, attempt ≤ m → m < attempt + n → env.ctxDoneDuringWait m = false) →
      env.ctxDoneDuringWait (attempt + n) = true →
      (doLoop h opts env bodyBytes errOuter attempt w resp fuel).err
          = some ReqError.cancelledDuringRetry
      ∧ (doLoop h opts env bodyBytes errOuter attempt w resp fuel).resp = none
      ∧ (doLoop h opts env bodyBytes errOuter attempt w resp fuel).built.length = n + 1 := by
  intro n
  induction n with
  | zero =>
    intro fuel attempt w resp hfuel hlt hsteps hquiet hdone
    have hfpos : 0 < fuel := by omega
    obtain ⟨f, rfl⟩ : ∃ f, fuel = f + 1 := ⟨fuel - 1, by omega⟩
    have hstep0 := hsteps attempt le_rfl (by omega)
    have hnotlast : ¬h.maxRetries ≤ (attempt : Int) := by
      push_cast at hlt ⊢
      omega
    rw [Nat.add_zero] at hdone
    cases hstep : env.step attempt with
    | buildFail => rw [hstep] at hstep0; simp [retryableStep] at hstep0
    | doErr msg =>
      refine ⟨?_, ?_, ?_⟩ <;>
        simp [doLoop, hstep, hnotlast, hdone, shouldRetry]
    | doOk r =>
      rw [hstep] at hstep0
      have hs : shouldRetry h.retryOnStatus (some r) none = true := hstep0
      refine ⟨?_, ?_, ?_⟩ <;>
        simp [doLoop, hstep, hnotlast, hdone, hs]
  | succ n ih =>
    intro fuel attempt w resp hfuel hlt hsteps hquiet hdone
    have hfpos : 0 < fuel := by omega
    obtain ⟨f, rfl⟩ : ∃ f, fuel = f + 1 := ⟨fuel - 1, by omega⟩
    have hstep0 := hsteps attempt le_rfl (by omega)
    have hnotlast : ¬h.maxRetries ≤ (attempt : Int) := by
      push_cast at hlt ⊢
      omega
    have hquiet0 : env.ctxDoneDuringWait attempt = false := hquiet attempt le_rfl (by omega)
    have hrest := ih f (attempt + 1) (nextCurrentWait w h.maxWait)
      (respOfStep (env.step attempt))
      (by push_cast at hfuel ⊢; omega)
      (by push_cast at hlt ⊢; omega)
      (fun m hm1 hm2 => hsteps m (by omega) (by omega))
      (fun m hm1 hm2 => hquiet m (by omega) (by omega))
      (by rw [show attempt + 1 + n = attempt + (n + 1) by omega] at *; exact hdone)
    cases hstep : env.step attempt with
    | buildFail => rw [hstep] at hstep0; simp [retryableStep] at hstep0
    | doErr msg =>
      rw [hstep] at hrest
      simp only [respOfStep] at hrest
      refine ⟨?_, ?_, ?_⟩ <;>
        simp [doLoop, hstep, hnotlast, hquiet0, shouldRetry,
          hrest.1, hrest.2.1, hrest.2.2]
    | doOk r =>
      rw [hstep] at hstep0 hrest
      simp only [respOfStep] at hrest
      have hs : shouldRetry h.retryOnStatus (some r) none = true := hstep0
      refine ⟨?_, ?_, ?_⟩ <;>
        simp [doLoop, hstep, hnotlast, hquiet0, hs,
          hrest.1, hrest.2.1, hrest.2.2]

/-- Claim C7: when the caller's context becomes done during the
inter-attempt wait after attempt `n` (the first wait at which it is
observed done), the call aborts immediately with the cancellation error
(wrapping `ctx.Err()` in the source), returns no response, and starts no
further attempt: exactly `n + 1` requests are ever built. -/
theorem C7_cancellation (h : HTTPUtil) (opts : RequestOptions) (env : Env) (n : Nat)
    (hm : opts.method ≠ "") (hu : opts.url ≠ "")
    (hbody : ∀ msg, opts.body ≠ some (Except.error msg))
    (hn : (n : Int) < h.maxRetries)
    (hsteps : ∀ m : Nat, m ≤ n → retryableStep h (env.step m) = true)
    (hquiet : ∀ m : Nat, m < n → env.ctxDoneDuringWait m = false)
    (hdone : env.ctxDoneDuringWait n = true) :
    (doRequest h opts env).err = some ReqError.cancelledDuringRetry
    ∧ (doRequest h opts env).resp = none
    ∧ (doRequest h opts env).built.length = n + 1 := by
  unfold doRequest
  rw [if_neg hm, if_neg hu]
  cases hob : opts.body with
  | none =>
    exact doLoop_cancel h opts env none none n (h.maxRetries + 1).toNat 0
      h.initialWait none (by omega) (by push_cast; omega)
      (fun m _ hm2 => hsteps m (by omega)) (fun m _ hm2 => hquiet m (by omega))
      (by rw [Nat.zero_add]; exact hdone)
  | some br =>
    cases br with
    | error msg => exact absurd hob (hbody msg)
    | ok bs =>
      exact doLoop_cancel h opts env (some bs) none n (h.maxRetries + 1).toNat 0
        h.initialWait none (by omega) (by push_cast; omega)
        (fun m _ hm2 => hsteps m (by omega)) (fun m _ hm2 => hquiet m (by omega))
        (by rw [Nat.zero_add]; exact hdone)

/-- Environment in which every attempt fails at transport level and the
context is done during every inter-attempt wait. -/
def envC7 : Env where
  step := fun _ => AttemptStep.doErr "eof"
  jitterDraw := fun _ => 0
  ctxDoneDuringWait := fun _ => true

/-- Request descriptor used by the C7 witness. -/
def optsC7 : RequestOptions := { method := "GET", url := "http://c7", body := none }

/-- Witness for C7: cancellation observed during the first wait against the
max-retries-1 client aborts with the cancellation error after one built
request. -/
theorem C7_cancellation_witness :
    (0 : Int) < util1r.maxRetries
    ∧ envC7.ctxDoneDuringWait 0 = true
    ∧ ((doRequest util1r optsC7 envC7).err = some ReqError.cancelledDuringRetry
      ∧ (doRequest util1r optsC7 envC7).resp = none
      ∧ (doRequest util1r optsC7 envC7).built.length = 0 + 1) :=
  ⟨by decide, rfl,
    C7_cancellation util1r optsC7 envC7 0 (by decide) (by decide)
      (fun msg hmsg => Option.noConfusion hmsg) (by decide)
      (fun m _ => rfl) (fun m hmm => absurd hmm (Nat.not_lt_zero m)) rfl⟩

/-- A run in which every admitted attempt is retryable and the context
never fires consumes all its fuel and exits with the exhaustion error; the
response returned alongside it is the final attempt's (attempt
`maxRetries`), and one request was built per admitted attempt. -/
theorem doLoop_exhaust_run (h : HTTPUtil) (opts : RequestOptions) (env : Env)
    (bodyBytes : Option (List Nat)) (errOuter : Option String) :
    ∀ (fuel attempt : Nat) (w : Int) (resp : Option Response),
      (fuel : Int) = h.maxRetries + 1 - attempt →
      (attempt : Int) ≤ h.maxRetries →
      (∀ m : Nat, attempt ≤ m → (m : Int) ≤ h.maxRetries →
        retryableStep h (env.step m) = true) →
      (∀ m : Nat, attempt ≤ m → (m : Int) < h.maxRetries →
        env.ctxDoneDuringWait m = false) →
      (doLoop h opts env bodyBytes errOuter attempt w resp fuel).resp
          = respOfStep (env.step h.maxRetries.toNat)
      ∧ (doLoop h opts env bodyBytes errOuter attempt w resp fuel).err
          = some (ReqError.retryExhausted
              (mkExhaustErr h opts errOuter (respOfStep (env.step h.maxRetries.toNat))))
      ∧ (doLoop h opts env bodyBytes errOuter attempt w resp fuel).built.length = fuel := by
  intro fuel
  induction fuel with
  | zero =>
    intro attempt w resp hfuel hle hsteps hquiet
    exfalso
    push_cast at hfuel
    omega
  | succ f ih =>
    intro attempt w resp hfuel hle hsteps hquiet
    have hstep0 := hsteps attempt le_rfl hle
    by_cases hlast : h.maxRetries ≤ (attempt : Int)
    · have hidx : h.maxRetries.toNat = attempt := by omega
      rw [hidx]
      cases hstep : env.step attempt with
      | buildFail => rw [hstep] at hstep0; simp [retryableStep] at hstep0
      | doErr msg =>
        refine ⟨?_, ?_, ?_⟩ <;>
            simp [doLoop, hstep, hlast, shouldRetry, exhaustOutcome, respOfStep]
        omega
      | doOk r =>
        rw [hstep] at hstep0
        have hs : shouldRetry h.retryOnStatus (some r) none = true := hstep0
        refine ⟨?_, ?_, ?_⟩ <;>
            simp [doLoop, hstep, hlast, hs, exhaustOutcome, respOfStep]
        omega
    · have hquiet0 : env.ctxDoneDuringWait attempt = false :=
        hquiet attempt le_rfl (by omega)
      have hrest := ih (attempt + 1) (nextCurrentWait w h.maxWait)
        (respOfStep (env.step attempt))
        (by push_cast at hfuel ⊢; omega)
        (by push_cast; omega)
        (fun m hm1 hm2 => hsteps m (by omega) hm2)
        (fun m hm1 hm2 => hquiet m (by omega) hm2)
      cases hstep : env.step attempt with
      | buildFail => rw [hstep] at hstep0; simp [retryableStep] at hstep0
      | doErr msg =>
        rw [hstep] at hrest
        simp only [respOfStep] at hrest
        refine ⟨?_, ?_, ?_⟩ <;>
          simp [doLoop, hstep, hlast, hquiet0, shouldRetry, respOfStep,
            hrest.1, hrest.2.1, hrest.2.2]
      | doOk r =>
        rw [hstep] at hstep0 hrest
        simp only [respOfStep] at hrest
        have hs : shouldRetry h.retryOnStatus (some r) none = true := hstep0
        refine ⟨?_, ?_, ?_⟩ <;>
          simp [doLoop, hstep, hlast, hquiet0, hs, respOfStep,
            hrest.1, hrest.2.1, hrest.2.2]

/-- Request descriptor used by the C10 counterexample. -/
def opts10 : RequestOptions := { method := "POST", url := "http://c10", body := none }

/-- A server that answers 503 on attempt 0 and then times out at transport
level on every later attempt. -/
def env10 : Env where
  step := fun n =>
    if n = 0 then AttemptStep.doOk { statusCode := 503, retryAfter := "" }
    else AttemptStep.doErr "timeout"
  jitterDraw := fun _ => 0
  ctxDoneDuringWait := fun _ => false

/-- Counterexample to claim C10 as stated: attempt 0 of this exhausted call
produced a 503 response, yet `doRequest` returns a nil response alongside
the exhaustion error: the final attempt's transport failure overwrote the
response variable with nil, so "non-nil whenever at least one attempt
produced a response" does not hold. -/
theorem C10_counterexample :
    env10.step 0 = AttemptStep.doOk { statusCode := 503, retryAfter := "" }
    ∧ (doRequest util1r opts10 env10).err
        = some (ReqError.retryExhausted
            { url := "http://c10", method := "POST", attempts := 2, lastStatus := 0,
              lastError := ExhaustLastError.unknownAfter 2 })
    ∧ (doRequest util1r opts10 env10).resp = none := by
  exact ⟨by decide, by decide, by decide⟩

/-- Claim C10 amended: a call whose every admitted attempt is retryable
(and never cancelled) returns the exhaustion error together with the
*final* attempt's response: non-nil exactly when the final attempt produced
a response, so the caller can inspect that response's status and body
despite receiving an error. -/
theorem C10_amended (h : HTTPUtil) (opts : RequestOptions) (env : Env)
    (hmr : 0 ≤ h.maxRetries) (hm : opts.method ≠ "") (hu : opts.url ≠ "")
    (hbody : ∀ msg, opts.body ≠ some (Except.error msg))
    (hsteps : ∀ m : Nat, (m : Int) ≤ h.maxRetries → retryableStep h (env.step m) = true)
    (hquiet : ∀ m : Nat, (m : Int) < h.maxRetries → env.ctxDoneDuringWait m = false) :
    (doRequest h opts env).resp = respOfStep (env.step h.maxRetries.toNat)
    ∧ (doRequest h opts env).err
        = some (ReqError.retryExhausted
            (mkExhaustErr h opts none (respOfStep (env.step h.maxRetries.toNat)))) := by
  unfold doRequest
  rw [if_neg hm, if_neg hu]
  cases hob : opts.body with
  | none =>
    have hrun := doLoop_exhaust_run h opts env none none (h.maxRetries + 1).toNat 0
      h.initialWait none (by omega) (by push_cast; omega)
      (fun m _ hm2 => hsteps m hm2) (fun m _ hm2 => hquiet m hm2)
    exact ⟨hrun.1, hrun.2.1⟩
  | some br =>
    cases br with
    | error msg => exact absurd hob (hbody msg)
    | ok bs =>
      have hrun := doLoop_exhaust_run h opts env (some bs) none (h.maxRetries + 1).toNat 0
        h.initialWait none (by omega) (by push_cast; omega)
        (fun m _ hm2 => hsteps m hm2) (fun m _ hm2 => hquiet m hm2)
      exact ⟨hrun.1, hrun.2.1⟩

/-- A server that fails at transport level on attempt 0 and answers 503
from attempt 1 on. -/
def envW10 : Env where
  step := fun n =>
    if n = 0 then AttemptStep.doErr "eof"
    else AttemptStep.doOk { statusCode := 503, retryAfter := "" }
  jitterDraw := fun _ => 0
  ctxDoneDuringWait := fun _ => false

/-- Witness for C10: with max retries 1 the final attempt (attempt 1)
produces a 503 response, and the exhausted call returns that response
alongside the error. -/
theorem C10_amended_witness :
    (doRequest util1r opts10 envW10).resp
        = respOfStep (envW10.step util1r.maxRetries.toNat)
    ∧ (doRequest util1r opts10 envW10).err
        = some (ReqError.retryExhausted
            (mkExhaustErr util1r opts10 none
              (respOfStep (envW10.step util1r.maxRetries.toNat)))) :=
  C10_amended util1r opts10 envW10 (by decide) (by decide) (by decide)
    (fun msg hmsg => Option.noConfusion hmsg)
    (fun m _ => by rcases m with _ | m <;> rfl)
    (fun m _ => rfl)

/-- One backoff update keeps a wait that starts within `[0, maxWait]` at or
above its current value, and (unconditionally) at or below `maxWait`. -/
theorem nextCurrentWait_invariant {w maxW : Int} (hw : 0 ≤ w) (hbound : w ≤ maxW) :
    w ≤ nextCurrentWait w maxW ∧ nextCurrentWait w maxW ≤ maxW := by
  unfold nextCurrentWait
  constructor
  · apply le_ratTrunc_of_intCast_le hw
    apply le_min
    · have hwq : (0 : ℚ) ≤ (w : ℚ) := by exact_mod_cast hw
      nlinarith
    · exact_mod_cast hbound
  · rw [ratTrunc_min_intCast]
    exact min_le_right _ _

/-- The pre-jitter wait sequence stays within `[0, maxWait]` when it starts
there. -/
theorem waitSeq_bounds (c : HTTPUtil) (h0 : 0 ≤ c.initialWait)
    (h1 : c.initialWait ≤ c.maxWait) :
    ∀ n, 0 ≤ waitSeq c n ∧ waitSeq c n ≤ c.maxWait := by
  intro n
  induction n with
  | zero => exact ⟨h0, h1⟩
  | succ n ih =>
    have hstep := nextCurrentWait_invariant ih.1 ih.2
    exact ⟨le_trans ih.1 hstep.1, hstep.2⟩

/-- Client with initial wait 2 ns above its max wait of 1 ns (expressible
because the configuration resolver performs no range validation). -/
def utilC9bad : HTTPUtil := { defaultUtil with initialWait := 2, maxWait := 1 }

/-- Client with a negative initial wait (again, no range validation). -/
def utilC9neg : HTTPUtil := { defaultUtil with initialWait := -8 }

/-- Counterexample to claim C9 as stated: it quantifies over *every*
configuration, but the resolver passes out-of-range values through, and
for initial wait 2 ns with max wait 1 ns the pre-jitter sequence starts
above the max wait (with no rate-limit hint involved) and strictly
decreases, while a negative initial wait makes the first wait negative. -/
theorem C9_counterexample :
    waitSeq utilC9bad 1 < waitSeq utilC9bad 0
    ∧ utilC9bad.maxWait < waitSeq utilC9bad 0
    ∧ waitSeq utilC9neg 0 < 0 := by
  have h1 : waitSeq utilC9bad 1 = 1 := by
    show nextCurrentWait 2 1 = 1
    unfold nextCurrentWait
    rw [ratTrunc_min_intCast, show ((2 : Int) : ℚ) * (3 / 2) = ((3 : Int) : ℚ) by norm_num,
      ratTrunc_intCast]
    decide
  refine ⟨?_, by decide, by decide⟩
  rw [h1]
  decide

/-- Claim C9 amended: for every configuration whose initial wait lies in
`[0, maxWait]`, the pre-jitter wait sequence
`w0 = initialWait, w(n+1) = min(w(n) * 1.5, maxWait)` is monotonically
non-decreasing, every wait is ≥ 0, and (jitter aside) no wait exceeds the
configured max wait; the rate-limit wait of a 429 response bypasses this
bound (see the C2 theorem). -/
theorem C9_amended (c : HTTPUtil) (n : Nat) (h0 : 0 ≤ c.initialWait)
    (h1 : c.initialWait ≤ c.maxWait) :
    waitSeq c n ≤ waitSeq c (n + 1)
    ∧ 0 ≤ waitSeq c n
    ∧ waitSeq c n ≤ c.maxWait := by
  have hb := waitSeq_bounds c h0 h1 n
  exact ⟨(nextCurrentWait_invariant hb.1 hb.2).1, hb.1, hb.2⟩

/-- Witness for C9: the default configuration at step 2 of the sequence. -/
theorem C9_amended_witness :
    (0 : Int) ≤ defaultUtil.initialWait
    ∧ defaultUtil.initialWait ≤ defaultUtil.maxWait
    ∧ (waitSeq defaultUtil 2 ≤ waitSeq defaultUtil 3
      ∧ 0 ≤ waitSeq defaultUtil 2
      ∧ waitSeq defaultUtil 2 ≤ defaultUtil.maxWait) :=
  ⟨by decide, by decide, C9_amended defaultUtil 2 (by decide) (by decide)⟩
